import Mathlib

/-!
Verification development for the Dead Internet Detector scoring engine.

The definitions below are a shallow embedding of the JavaScript sources:
`src/analysis/TrustScorer.js`, `src/analysis/AccountAnalyzer.js` and the
`TextAnalyzer` / `BatchTextAnalyzer` content-script module.  JavaScript
numbers are modelled as `ℚ` (all arithmetic in these modules is exact
decimal arithmetic on small values), JS `null`/`undefined` are modelled
with `Option` or explicit three-valued wrappers where the distinction
matters, and objects iterated with `Object.entries` are modelled as
association lists in insertion order.  Text is processed as `List Char`
(the inputs of interest are ASCII, where JS UTF-16 code units, code points
and characters coincide).
-/

namespace DID

/-! ### TrustScorer.js : the score aggregator -/

/-- Severity of a flagged issue: `high` when the signal score is below 0.2,
otherwise `medium` (issues are only produced below 0.4). -/
inductive Severity where
  | high
  | medium
  deriving DecidableEq, Repr

/-- An entry of the `issues` list produced by `_scoreCatgory`. -/
structure Issue where
  category : String
  signal : String
  score : ℚ
  detail : Option String
  severity : Severity
  deriving DecidableEq, Repr

/-- A signal value as accepted by `_scoreCatgory`: either a bare number or an
object `{score, detail}` (whose `score` may itself be null). -/
inductive SignalValue where
  | num (q : ℚ)
  | obj (score : Option ℚ) (detail : Option String)
  deriving DecidableEq, Repr

/-- `typeof signalValue === 'object' ? signalValue.score : signalValue`. -/
def normVal : SignalValue → Option ℚ
  | .num q => some q
  | .obj s _ => s

/-- `typeof signalValue === 'object' ? signalValue.detail : null`. -/
def detailOf : SignalValue → Option String
  | .num _ => none
  | .obj _ d => d

/-- The issue pushed by `_scoreCatgory` for one signal entry, if any:
only produced when the normalized value exists and is `< 0.4`. -/
def issueOf (category signalName : String) (v : SignalValue) : Option Issue :=
  match normVal v with
  | none => none
  | some q =>
    if q < 2/5 then
      some ⟨category, signalName, q, detailOf v,
            if q < 1/5 then Severity.high else Severity.medium⟩
    else none

/-- Accumulator of the `_scoreCatgory` loop. -/
structure CatAcc where
  scoreSum : ℚ
  weightSum : ℚ
  count : Nat
  issues : List Issue
  deriving DecidableEq, Repr

/-- The loop body of `_scoreCatgory`: skip `null`/`undefined` signal values,
skip entries whose normalized value is `null`/`undefined`, otherwise
accumulate `score += value * (weights[name] || 0)`, `weightSum += weight`,
`signalCount++`, and push an issue when the value is below 0.4.
The weight table `w` is total with default `0`, mirroring
`weights[signalName] || 0`. -/
def catFold (category : String) (w : String → ℚ) :
    List (String × Option SignalValue) → CatAcc
  | [] => ⟨0, 0, 0, []⟩
  | (name, v?) :: rest =>
    match v? with
    | none => catFold category w rest
    | some v =>
      match normVal v with
      | none => catFold category w rest
      | some q =>
        let acc := catFold category w rest
        ⟨q * w name + acc.scoreSum, w name + acc.weightSum, acc.count + 1,
          (match issueOf category name v with
            | some i => i :: acc.issues
            | none => acc.issues)⟩

/-- Per-category result returned by `_scoreCatgory`. -/
structure CatResult where
  score : ℚ
  signalCount : Nat
  issues : List Issue
  deriving DecidableEq, Repr

/-- `_scoreCatgory` (the typo is in the source): weighted average of the
contributing signals, falling back to 0.5 when the weight sum is not
positive. -/
def scoreCatgory (category : String) (w : String → ℚ)
    (signals : List (String × Option SignalValue)) : CatResult :=
  let a := catFold category w signals
  ⟨if 0 < a.weightSum then a.scoreSum / a.weightSum else 1/2, a.count, a.issues⟩

/-- Per-signal weight table for the `text` category. -/
def textWeights : String → ℚ := fun n =>
  if n = "aiDetection" then 1/4
  else if n = "repetitionPattern" then 1/5
  else if n = "sentimentConsistency" then 3/20
  else if n = "vocabularyDistribution" then 3/20
  else if n = "templateMatching" then 1/4
  else 0

/-- Per-signal weight table for the `account` category. -/
def accountWeights : String → ℚ := fun n =>
  if n = "accountAge" then 3/10
  else if n = "postingFrequency" then 1/4
  else if n = "reviewDiversity" then 1/5
  else if n = "profileCompleteness" then 3/20
  else if n = "networkConnections" then 1/10
  else 0

/-- Per-signal weight table for the `behavioral` category. -/
def behavioralWeights : String → ℚ := fun n =>
  if n = "timingCluster" then 7/20
  else if n = "coordinatedLanguage" then 7/20
  else if n = "ratingDistribution" then 3/10
  else 0

/-- Per-signal weight table for the `media` category. -/
def mediaWeights : String → ℚ := fun n =>
  if n = "reverseImageMatch" then 2/5
  else if n = "exifAnalysis" then 1/4
  else if n = "aiArtifacts" then 7/20
  else 0

/-- `this.weights`: defined exactly for the four known categories;
`!this.weights[category]` skips anything else. -/
def weightsTable : String → Option (String → ℚ) := fun c =>
  if c = "text" then some textWeights
  else if c = "account" then some accountWeights
  else if c = "behavioral" then some behavioralWeights
  else if c = "media" then some mediaWeights
  else none

/-- `this.categoryWeights[category] || 0`. -/
def categoryWeights : String → ℚ := fun c =>
  if c = "text" then 3/10
  else if c = "account" then 1/4
  else if c = "behavioral" then 3/10
  else if c = "media" then 3/20
  else 0

/-- The trust-level enumeration (string constants in the source). -/
inductive TrustLevel where
  | HIGH_TRUST
  | MODERATE_TRUST
  | LOW_TRUST
  | VERY_LOW_TRUST
  | INSUFFICIENT_DATA
  deriving DecidableEq, Repr

/-- `_getTrustLevel`: thresholds 0.75 / 0.50 / 0.30, first satisfied wins. -/
def getTrustLevel (score : ℚ) : TrustLevel :=
  if 3/4 ≤ score then .HIGH_TRUST
  else if 1/2 ≤ score then .MODERATE_TRUST
  else if 3/10 ≤ score then .LOW_TRUST
  else .VERY_LOW_TRUST

/-- `_generateMessage`. -/
def generateMessage (level : TrustLevel) (issues : List Issue) (confidence : ℚ) :
    String :=
  let q := if confidence < 1/2 then "Limited data suggests" else ""
  let n := issues.length
  let s := if n ≠ 1 then "s" else ""
  let base :=
    match level with
    | .HIGH_TRUST => "This content appears authentic based on available signals."
    | .MODERATE_TRUST =>
        "Mixed signals detected. " ++ toString n ++ " potential concern" ++ s
          ++ " found."
    | .LOW_TRUST =>
        "Multiple markers suggest this content may not be authentic. "
          ++ toString n ++ " concern" ++ s ++ " flagged."
    | .VERY_LOW_TRUST =>
        "Strong indicators of inauthentic content detected. " ++ toString n
          ++ " significant concern" ++ s ++ " found."
    | .INSUFFICIENT_DATA => "Unable to assess."
  if q ≠ "" then q ++ ": " ++ base else base

/-- The `{minSignalsRequired, confidenceDecay}` configuration. -/
structure ScorerConfig where
  minSignalsRequired : Nat
  confidenceDecay : ℚ
  deriving DecidableEq, Repr

/-- Defaults from the `TrustScorer` constructor. -/
def defaultConfig : ScorerConfig := ⟨3, 17/20⟩

/-- The immutable `TrustResult` value (timestamp omitted: `Date.now()` is the
only impure field and no claim concerns it). -/
structure TrustResult where
  score : Option ℚ
  level : TrustLevel
  confidence : ℚ
  message : String
  details : List (String × CatResult)
  issues : List Issue
  signalCount : Nat
  deriving DecidableEq, Repr

/-- The category loop of `computeScore`: categories absent from the weight
table are skipped, and a category result is kept only when its
`signalCount` is positive.  Returns `(categoryScores, totalSignals,
flaggedIssues)` in insertion order. -/
def scoreCategories :
    List (String × List (String × Option SignalValue)) →
      List (String × CatResult) × Nat × List Issue
  | [] => ([], 0, [])
  | (category, group) :: rest =>
    match weightsTable category with
    | none => scoreCategories rest
    | some w =>
      let r := scoreCatgory category w group
      let acc := scoreCategories rest
      if 0 < r.signalCount then
        ((category, r) :: acc.1, r.signalCount + acc.2.1, r.issues ++ acc.2.2)
      else acc

/-- `computeScore`. -/
def computeScore (cfg : ScorerConfig)
    (signals : List (String × List (String × Option SignalValue))) :
    TrustResult :=
  let scored := scoreCategories signals
  let categoryScores := scored.1
  let totalSignals := scored.2.1
  let flaggedIssues := scored.2.2
  if totalSignals < cfg.minSignalsRequired then
    ⟨none, .INSUFFICIENT_DATA, 0, "Not enough data to assess authenticity",
      categoryScores, [], totalSignals⟩
  else
    let rawScore := (categoryScores.map
      (fun p => p.2.score * categoryWeights p.1)).sum
    let weightSum := (categoryScores.map (fun p => categoryWeights p.1)).sum
    let finalScore := if 0 < weightSum then rawScore / weightSum else 1/2
    let signalCoverage := (totalSignals : ℚ) / 10
    let confidence := min 1 signalCoverage * cfg.confidenceDecay
    let level := getTrustLevel finalScore
    let message := generateMessage level flaggedIssues confidence
    ⟨some finalScore, level, confidence, message, categoryScores,
      flaggedIssues, totalSignals⟩

/-! ### Character-list helpers mirroring the JavaScript string primitives

All text processing is done on `List Char` with structural (or explicitly
fuelled) recursion so that every function evaluates inside the kernel. -/

/-- First-occurrence deduplication, mirroring JS `Set` / object-key
insertion order. -/
def uniq {α : Type} [DecidableEq α] : List α → List α
  | [] => []
  | x :: xs => x :: (uniq xs).filter (fun y => y ≠ x)

/-- Split at every character satisfying `p`, keeping empty segments
(the behaviour of JS `split` with a single-character pattern). -/
def splitCh (p : Char → Bool) : List Char → List (List Char)
  | [] => [[]]
  | c :: cs =>
    if p c then [] :: splitCh p cs
    else
      match splitCh p cs with
      | [] => [[c]]
      | seg :: rest => (c :: seg) :: rest

/-- Drop empty segments except a trailing one (helper for `jsSplitWS`). -/
def keepLast : List (List Char) → List (List Char)
  | [] => []
  | [y] => [y]
  | y :: ys => if y = [] then keepLast ys else y :: keepLast ys

/-- JS `s.split(/\s+/)`: splits on runs of whitespace; a leading or
trailing run contributes an empty segment, and splitting the empty string
yields `[""]`. -/
def jsSplitWS (l : List Char) : List (List Char) :=
  match splitCh Char.isWhitespace l with
  | [] => [[]]
  | x :: xs => x :: keepLast xs

/-- JS `String.prototype.trim` (ASCII whitespace). -/
def trimL (l : List Char) : List Char :=
  ((l.dropWhile Char.isWhitespace).reverse.dropWhile Char.isWhitespace).reverse

/-- JS `String.prototype.toLowerCase` (ASCII). -/
def toLowerL (l : List Char) : List Char :=
  l.map Char.toLower

/-- JS `word.replace(/[^a-z]/g, '')`. -/
def cleanWord (l : List Char) : List Char :=
  l.filter (fun c => 'a' ≤ c && c ≤ 'z')

/-- Substring test (JS `String.prototype.includes`). -/
def hasSub (needle : List Char) : List Char → Bool
  | [] => needle.isEmpty
  | c :: cs => needle.isPrefixOf (c :: cs) || hasSub needle cs

/-- Count non-overlapping occurrences of `pat` scanning left to right, as a
global regex over an escaped literal does.  `fuel` only bounds the
recursion depth; it is always instantiated with the text length, which the
scan never exhausts (each step consumes at least one character for the
non-empty patterns used). -/
def countOccF (pat : List Char) : Nat → List Char → Nat
  | 0, _ => 0
  | _, [] => 0
  | fuel + 1, d :: hay =>
    if pat.isPrefixOf (d :: hay) then
      1 + countOccF pat fuel ((d :: hay).drop pat.length)
    else countOccF pat fuel hay

/-- Number of matches of `text.match(new RegExp(escape(pat), 'gi'))` for a
lower-case literal `pat` against lower-case text. -/
def countOcc (pat text : List Char) : Nat :=
  countOccF pat text.length text

/-- JS regex word characters (`\w`, the class `\b` is defined from). -/
def isWordChar (c : Char) : Bool :=
  ('a' ≤ c && c ≤ 'z') || ('A' ≤ c && c ≤ 'Z') || ('0' ≤ c && c ≤ '9') || c = '_'

/-- Count non-overlapping matches of `new RegExp('\\b' + w + '\\b', 'gi')`
for a lower-case word `w` whose first and last characters are word
characters.  `lastc` is the final character of `w`, `prev` the character
before the scan position, `fuel` as in `countOccF`. -/
def countWBF (pat : List Char) (lastc : Char) :
    Nat → Option Char → List Char → Nat
  | 0, _, _ => 0
  | _, _, [] => 0
  | fuel + 1, prev, d :: hay =>
    if (match prev with | none => true | some p => !isWordChar p)
        && pat.isPrefixOf (d :: hay)
        && (match ((d :: hay).drop pat.length).head? with
            | none => true
            | some a => !isWordChar a) then
      1 + countWBF pat lastc fuel (some lastc) ((d :: hay).drop pat.length)
    else countWBF pat lastc fuel (some d) hay

/-- Word-boundary occurrence count of `w` in `text`. -/
def countWB (pat text : List Char) : Nat :=
  countWBF pat (pat.getLastD ' ') text.length none text

/-- JS `array.join(' ')`. -/
def joinSp : List (List Char) → List Char
  | [] => []
  | [x] => x
  | x :: xs => x ++ ' ' :: joinSp xs

/-- The n-gram loop `for (let i = 0; i <= words.length - n; i++)` over an
already-split word list (the JS subtraction is on doubles, so a short list
yields no iterations). -/
def ngramsOf (words : List (List Char)) (n : Nat) : List (List Char) :=
  if words.length < n then []
  else (List.range (words.length - n + 1)).map
    (fun i => joinSp ((words.drop i).take n))

/-! ### TextAnalyzer (content-script module): lexical signal detectors -/

/-- `this.aiTellPhrases`. -/
def aiTellPhrases : List String :=
  ["it\x27s worth noting", "it is worth noting", "a testament to",
   "game-changer", "game changer", "delve into", "tapestry", "multifaceted",
   "in today\x27s world", "in the realm of", "navigating the", "stands out as",
   "it should be noted", "in this regard", "underscores", "fostering",
   "holistic", "elevate the", "elevates the", "truly remarkable",
   "new heights", "commitment to excellence", "user experience",
   "attention to detail is", "works flawlessly", "couldn\x27t be happier",
   "changed my daily routine", "both elegant and practical"]

/-- `this.hypeWords`. -/
def hypeWords : List String :=
  ["amazing", "incredible", "fantastic", "exceptional", "remarkable",
   "outstanding", "unbeatable", "flawlessly", "truly", "absolutely",
   "every way", "everyone", "definitely", "certainly"]

/-- `this.fakeReviewTemplates`. -/
def fakeReviewTemplates : List String :=
  ["i bought this for my", "i purchased this for", "my husband/wife loves",
   "exactly as described", "exactly what i needed",
   "highly recommend this product", "five stars all the way",
   "exceeded my expectations", "i was skeptical at first but",
   "worth every penny", "great quality for the price",
   "you won\x27t be disappointed", "must have product",
   "i\x27ve tried many similar products", "this is by far the best",
   "don\x27t hesitate to buy", "arrived quickly and well packaged"]

/-- `_detectAIPatterns`. -/
def detectAIPatterns (text : List Char) : ℚ × Option String :=
  let aiPhraseCount := (aiTellPhrases.map (fun p => countOcc p.data text)).sum
  let foundPhrases := aiTellPhrases.filter (fun p => 0 < countOcc p.data text)
  let density : ℚ := (aiPhraseCount : ℚ) / ((text.length : ℚ) / 500)
  let hypeCount := (hypeWords.map (fun w => countWB w.data text)).sum
  let hypeDensity : ℚ := (hypeCount : ℚ) / ((text.length : ℚ) / 500)
  let score1 : ℚ :=
    if 0 < aiPhraseCount then 1 - min (1/2) (density * (1/4)) else 1
  let score2 : ℚ :=
    if 3 < hypeDensity then score1 - min (2/5) ((hypeDensity - 2) * (1/10))
    else score1
  (max 0 (min 1 score2),
   if 0 < foundPhrases.length ∨ 3 < hypeCount then
     some ("Found " ++ toString aiPhraseCount ++ " AI-associated phrases, "
       ++ toString hypeCount ++ " hype words")
   else none)

/-- `_extractNgrams`. -/
def extractNgrams (text : List Char) (n : Nat) : List (List Char) :=
  ngramsOf ((jsSplitWS text).filter (fun w => 0 < w.length)) n

/-- The connective-word list of `_analyzeRepetition`. -/
def connectives : List String :=
  ["because", "since", "so", "which", "where", "when", "after", "before",
   "while", "then"]

/-- `_analyzeRepetition`.  The sentence split on `/[.!?]+/` is modelled by
splitting at each of the three characters: runs of delimiters only produce
empty segments, which the `> 10`-length filter removes either way. -/
def analyzeRepetition (text : List Char) : ℚ × Option String :=
  let sentences := (splitCh (fun c => c == '.' || c == '!' || c == '?') text).filter
    (fun s => 10 < (trimL s).length)
  if sentences.length < 2 then (1/2, none)
  else
    let trigrams := extractNgrams text 3
    let repeatedTrigrams := (uniq trigrams).countP (fun g => 2 < trigrams.count g)
    let repRate : ℚ := (repeatedTrigrams : ℚ) / ((max 1 trigrams.length : Nat) : ℚ)
    let starts := sentences.map (fun s => joinSp ((jsSplitWS (trimL s)).take 3))
    let uniqueStarts := (uniq starts).length
    let startDiversity : ℚ := (uniqueStarts : ℚ) / (starts.length : ℚ)
    let sentenceLengths : List ℚ :=
      sentences.map (fun s => ((jsSplitWS (trimL s)).length : ℚ))
    let avgSentenceLength := sentenceLengths.sum / (sentences.length : ℚ)
    let sentenceLengthVariance :=
      (sentenceLengths.map (fun len => (len - avgSentenceLength) ^ 2)).sum
        / (sentences.length : ℚ)
    let formulaicBase : ℚ :=
      if sentenceLengthVariance < 8 ∧ 3 ≤ sentences.length then 3/10 else 0
    let connectiveCount :=
      (jsSplitWS text).countP
        (fun w => connectives.any (fun c => c.data == cleanWord (toLowerL w)))
    let formulaicScore : ℚ :=
      formulaicBase
        + (if connectiveCount = 0 ∧ 4 ≤ sentences.length then 1/5 else 0)
    let score : ℚ :=
      1 - (1 - startDiversity) * (3/10) - min (3/10) (repRate * 50 * (3/10))
        - formulaicScore
    (max 0 (min 1 score),
     if score < 1/2 then
       some ("Formulaic structure detected: " ++ toString repeatedTrigrams
         ++ " repeated phrases, low sentence variation")
     else none)

/-- The positive-word list of `_analyzeSentiment`. -/
def positiveWords : List String :=
  ["great", "amazing", "excellent", "perfect", "love", "best", "wonderful",
   "fantastic", "awesome", "incredible", "superb", "outstanding", "brilliant",
   "magnificent", "terrific", "fabulous", "happy", "recommend"]

/-- The negative-word list of `_analyzeSentiment`. -/
def negativeWords : List String :=
  ["bad", "terrible", "awful", "worst", "hate", "horrible", "poor",
   "disappointing", "broken", "waste", "junk", "useless", "defective",
   "cheap", "flimsy", "garbage"]

/-- The hedging-word list of `_analyzeSentiment` (multi-word entries can
never equal a cleaned single word, exactly as in the source). -/
def hedgingWords : List String :=
  ["but", "however", "although", "though", "except", "unless", "somewhat",
   "slightly", "minor", "small issue", "only complaint", "downside", "only",
   "wish", "could be", "not perfect"]

/-- Unit names of the first specificity-marker regex. -/
def unitWords : List String :=
  ["inch", "mm", "cm", "lb", "kg", "oz", "gb", "mb", "watt", "hour", "day",
   "week", "month", "minute"]

/-- `/\d+\s*(inch|...)/i` on lower-case text: a digit, then (after the rest
of its digit run and optional whitespace) a unit name. -/
def specMarkerUnits : List Char → Bool
  | [] => false
  | c :: cs =>
    (c.isDigit && unitWords.any (fun u =>
      u.data.isPrefixOf ((cs.dropWhile Char.isDigit).dropWhile Char.isWhitespace)))
    || specMarkerUnits cs

/-- `/\d+\/\d+/`: a digit, a slash, a digit, somewhere in the text. -/
def hasDigitSlashDigit : List Char → Bool
  | a :: b :: c :: rest =>
    (a.isDigit && b == '/' && c.isDigit) || hasDigitSlashDigit (b :: c :: rest)
  | _ => false

/-- `/\$\d+/`. -/
def hasDollarDigit : List Char → Bool
  | a :: b :: rest => (a == '$' && b.isDigit) || hasDollarDigit (b :: rest)
  | _ => false

/-- `/[A-Z][a-z]+ [A-Z]/` (never matches the lower-cased input, faithfully
modelled anyway). -/
def hasProperNounPair : List Char → Bool
  | [] => false
  | c :: cs =>
    (c.isUpper &&
      (0 < (cs.takeWhile Char.isLower).length &&
        (match cs.drop (cs.takeWhile Char.isLower).length with
         | ' ' :: u :: _ => u.isUpper
         | _ => false)))
    || hasProperNounPair cs

/-- The alternatives of `/my (wife|husband|...)/i` as plain substrings. -/
def familyPhrases : List String :=
  ["my wife", "my husband", "my son", "my daughter", "my mom", "my dad",
   "my friend", "my sister", "my brother", "my kid"]

/-- `specificityScore`: how many of the five marker regexes test true. -/
def specificityScore (text : List Char) : Nat :=
  (if specMarkerUnits text then 1 else 0)
  + (if hasDigitSlashDigit text then 1 else 0)
  + (if hasDollarDigit text then 1 else 0)
  + (if hasProperNounPair text then 1 else 0)
  + (if familyPhrases.any (fun p => hasSub p.data text) then 1 else 0)

/-- `_analyzeSentiment`. -/
def analyzeSentiment (text : List Char) : ℚ × Option String :=
  let words := jsSplitWS text
  let wordCount := words.length
  let posCount :=
    words.countP (fun w => positiveWords.any (fun p => p.data == cleanWord w))
  let negCount :=
    words.countP (fun w => negativeWords.any (fun p => p.data == cleanWord w))
  let hedgeCount :=
    words.countP (fun w => hedgingWords.any (fun p => p.data == cleanWord w))
  let posDensity : ℚ := (posCount : ℚ) / (wordCount : ℚ)
  let spec := specificityScore text
  if 3/50 < posDensity ∧ hedgeCount = 0 ∧ negCount = 0 ∧ spec = 0 then
    (3/20, some "Uniformly positive with no nuance or specific details")
  else if 2/25 < posDensity ∧ spec = 0 then
    (3/10, some "Very high praise density without concrete details")
  else if 3/50 < posDensity ∧ hedgeCount = 0 ∧ negCount = 0 ∧ 0 < spec then
    (9/20, some "Positive without hedging but contains specific details")
  else if 0 < hedgeCount ∨ (0 < posCount ∧ 0 < negCount) then
    (17/20, none)
  else
    (3/5, none)

/-- The vague-word set of `_analyzeVocabulary`. -/
def vagueWords : List String :=
  ["product", "item", "thing", "purchase", "quality", "price", "everything",
   "everyone", "anyone", "nothing", "something", "ever", "always", "never",
   "every", "very", "really", "just", "amazing", "great", "good", "nice",
   "best", "love", "happy"]

/-- JS `Math.round` (round half toward positive infinity). -/
def jsRound (q : ℚ) : ℤ :=
  ⌊q + 1/2⌋

/-- `_analyzeVocabulary`. -/
def analyzeVocabulary (text : List Char) : ℚ × Option String :=
  let words := ((jsSplitWS text).map cleanWord).filter (fun w => 2 < w.length)
  if words.length < 20 then (1/2, none)
  else
    let ttr : ℚ := ((uniq words).length : ℚ) / (words.length : ℚ)
    let vagueCount :=
      words.countP (fun w => vagueWords.any (fun v => v.data == w))
    let vagueDensity : ℚ := (vagueCount : ℚ) / (words.length : ℚ)
    let base : ℚ :=
      if 17/20 < ttr ∧ 100 < words.length then 1/2
      else if ttr < 3/10 then 7/20
      else 7/10 + ttr * (1/5)
    let afterVague : ℚ :=
      if 1/5 < vagueDensity then base - 7/20
      else if 3/20 < vagueDensity then base - 1/5
      else base
    let avgWordLength :=
      (words.map (fun w => (w.length : ℚ))).sum / (words.length : ℚ)
    let wordLengthVariance :=
      (words.map (fun w => ((w.length : ℚ) - avgWordLength) ^ 2)).sum
        / (words.length : ℚ)
    let final : ℚ :=
      if wordLengthVariance < 3 then afterVague * (4/5) else afterVague
    (max 0 (min 1 final),
     if final < 2/5 then
       some ("Vocabulary lacks specificity ("
         ++ toString (jsRound (vagueDensity * 100)) ++ "% generic words)")
     else none)

/-- `_detectTemplates`. -/
def detectTemplates (text : List Char) : ℚ × Option String :=
  let matchedTemplates := fakeReviewTemplates.filter (fun tp => hasSub tp.data text)
  let matchCount := matchedTemplates.length
  (max 0 (1 - (matchCount : ℚ) * (3/10)),
   if 0 < matchCount then
     some ("Matched " ++ toString matchCount
       ++ " common fake review template phrase"
       ++ (if 1 < matchCount then "s" else ""))
   else none)

/-- The record returned by `TextAnalyzer.analyze`: one `SignalOutput` per
lexical detector, or `null` for every field when the text is too short. -/
structure TextSignals where
  aiDetection : Option (ℚ × Option String)
  repetitionPattern : Option (ℚ × Option String)
  sentimentConsistency : Option (ℚ × Option String)
  vocabularyDistribution : Option (ℚ × Option String)
  templateMatching : Option (ℚ × Option String)
  deriving DecidableEq, Repr

/-- `TextAnalyzer.analyze`: texts shorter than 20 characters (including the
empty text caught by `!text`) yield all-null signals; otherwise the input
is lower-cased and trimmed and fed to the five detectors.  (JS `.length`
counts UTF-16 units, which on ASCII input equals `String.length`.) -/
def TextAnalyzer.analyze (text : String) : TextSignals :=
  if text.length < 20 then ⟨none, none, none, none, none⟩
  else
    let normalized := trimL (toLowerL text.data)
    ⟨some (detectAIPatterns normalized), some (analyzeRepetition normalized),
     some (analyzeSentiment normalized), some (analyzeVocabulary normalized),
     some (detectTemplates normalized)⟩

/-! ### BatchTextAnalyzer: cross-review coordination signals -/

/-- The per-text 4-gram sets built at the top of `_findSharedPhrases`
(`t.toLowerCase().split(/\s+/)`, then a `Set` of joined 4-grams). -/
def shingleSets (texts : List String) : List (List (List Char)) :=
  texts.map (fun t => uniq (ngramsOf (jsSplitWS (toLowerL t.data)) 4))

/-- `_findSharedPhrases`: count, per distinct 4-gram, the number of texts
whose gram set contains it; keep those occurring in at least 3, sorted by
count descending (stable, as JS `sort`). -/
def findSharedPhrases (texts : List String) : List (String × Nat) :=
  let sets := shingleSets texts
  let keys := uniq sets.flatten
  let counted := keys.map (fun g => (g, sets.countP (fun s => s.contains g)))
  (((counted.filter (fun p => 3 ≤ p.2)).mergeSort (fun a b => b.2 ≤ a.2)).map
    (fun p => (String.mk p.1, p.2)))

/-- The `coordinatedLanguage` signal object. -/
structure CoordLang where
  score : ℚ
  detail : Option String
  sharedPhrases : List (String × Nat)
  deriving DecidableEq, Repr

/-- The record returned by `_analyzeCrossPatterns`.  In the source the
small-batch branch sets all three keys to `null` while the main branch only
sets `coordinatedLanguage`; an absent key reads as `undefined`, which every
consumer treats like `null`, so both are `none` here. -/
structure CrossSignals where
  coordinatedLanguage : Option CoordLang
  ratingDistribution : Option (ℚ × Option String)
  timingCluster : Option (ℚ × Option String)
  deriving DecidableEq, Repr

/-- `_analyzeCrossPatterns`. -/
def analyzeCrossPatterns (texts : List String) : CrossSignals :=
  if texts.length < 3 then ⟨none, none, none⟩
  else
    let sharedPhrases := findSharedPhrases texts
    ⟨some ⟨max 0 (1 - (sharedPhrases.length : ℚ) * (3/20)),
      (if 3 < sharedPhrases.length then
        some ("Found " ++ toString sharedPhrases.length
          ++ " phrases repeated across multiple reviews")
      else none),
      sharedPhrases⟩,
     none, none⟩

/-! ### AccountAnalyzer.js: reviewer profiles and the network signal -/

/-- A JavaScript field value: `undefined` (absent), `null`, or a value. -/
inductive JOpt (α : Type) where
  | undef
  | null
  | val (a : α)
  deriving DecidableEq, Repr

/-- `undefined` test (`x !== undefined` is its negation). -/
def jIsUndef {α : Type} : JOpt α → Bool
  | .undef => true
  | _ => false

/-- JS truthiness of a numeric field (`null`, `undefined` and `0` are
falsy). -/
def jTruthyNum : JOpt ℚ → Bool
  | .val q => q != 0
  | _ => false

/-- JS numeric coercion as it occurs in `helpfulVotes / totalReviews`:
`null` coerces to `0`.  (`undefined` would give NaN; every use site is
guarded so that case is unreachable.) -/
def jToNum : JOpt ℚ → ℚ
  | .val q => q
  | _ => 0

/-- The raw `data` argument of the `ReviewerProfile` constructor; a missing
key is `undef`. -/
structure ProfileData where
  displayName : JOpt String := .undef
  avatarUrl : JOpt String := .undef
  bio : JOpt String := .undef
  location : JOpt String := .undef
  accountCreated : JOpt String := .undef
  firstReviewDate : JOpt String := .undef
  totalReviews : JOpt ℚ := .undef
  helpfulVotes : JOpt ℚ := .undef
  ratings : JOpt (List ℚ) := .undef
  reviewDates : JOpt (List String) := .undef
  reviewCategories : JOpt (List String) := .undef
  reviewDate : JOpt String := .undef
  verifiedPurchase : JOpt Bool := .undef
  deriving DecidableEq, Repr

/-- A constructed `ReviewerProfile` instance. -/
structure ReviewerProfile where
  displayName : JOpt String
  avatarUrl : JOpt String
  bio : JOpt String
  location : JOpt String
  accountCreated : JOpt String
  firstReviewDate : JOpt String
  totalReviews : JOpt ℚ
  helpfulVotes : JOpt ℚ
  ratings : List ℚ
  reviewDates : List String
  reviewCategories : List String
  reviewDate : JOpt String
  verifiedPurchase : Bool
  deriving DecidableEq, Repr

/-- `data.x || null` for a string field: the empty string is falsy. -/
def strOrNull : JOpt String → JOpt String
  | .val s => if s = "" then .null else .val s
  | _ => .null

/-- `data.x || null` for a numeric field: `0` is falsy. -/
def numOrNull : JOpt ℚ → JOpt ℚ
  | .val q => if q = 0 then .null else .val q
  | _ => .null

/-- `data.x || []` for an array field (every array is truthy in JS). -/
def arrOrEmpty {α : Type} : JOpt (List α) → List α
  | .val l => l
  | _ => []

/-- `data.verifiedPurchase || false`. -/
def boolOrFalse : JOpt Bool → Bool
  | .val b => b
  | _ => false

/-- The `ReviewerProfile` constructor. -/
def mkReviewerProfile (data : ProfileData) : ReviewerProfile :=
  ⟨strOrNull data.displayName, strOrNull data.avatarUrl, strOrNull data.bio,
   strOrNull data.location, strOrNull data.accountCreated,
   strOrNull data.firstReviewDate, numOrNull data.totalReviews,
   numOrNull data.helpfulVotes, arrOrEmpty data.ratings,
   arrOrEmpty data.reviewDates, arrOrEmpty data.reviewCategories,
   strOrNull data.reviewDate, boolOrFalse data.verifiedPurchase⟩

/-- `_scoreNetworkSignals`: guarded by
`profile.helpfulVotes !== undefined && profile.totalReviews`. -/
def scoreNetworkSignals (profile : ReviewerProfile) : Option (ℚ × Option String) :=
  if !jIsUndef profile.helpfulVotes && jTruthyNum profile.totalReviews then
    let hv := jToNum profile.helpfulVotes
    let tr := jToNum profile.totalReviews
    let helpfulRate := hv / tr
    if helpfulRate < 1/10 ∧ 20 < tr then
      some (2/5, some "Very low helpful vote ratio despite many reviews")
    else if 1 < helpfulRate then
      some (9/10, none)
    else none
  else none

/-! ### Shared lemmas about the category fold -/

theorem catFold_append (category : String) (w : String → ℚ)
    (l1 l2 : List (String × Option SignalValue)) :
    catFold category w (l1 ++ l2) =
      ⟨(catFold category w l1).scoreSum + (catFold category w l2).scoreSum,
       (catFold category w l1).weightSum + (catFold category w l2).weightSum,
       (catFold category w l1).count + (catFold category w l2).count,
       (catFold category w l1).issues ++ (catFold category w l2).issues⟩ := by
  induction l1 with
  | nil => simp [catFold]
  | cons p l1 ih =>
    obtain ⟨name, v?⟩ := p
    cases v? with
    | none => simpa [catFold] using ih
    | some v =>
      cases hv : normVal v with
      | none => simpa [catFold, hv] using ih
      | some q =>
        simp only [List.cons_append, catFold, hv, List.append_eq, ih,
          CatAcc.mk.injEq]
        refine ⟨by ring, by ring, by omega, ?_⟩
        cases issueOf category name v <;> simp

theorem catFold_cons_some (category : String) (w : String → ℚ) (name : String)
    (v : SignalValue) (q : ℚ) (rest : List (String × Option SignalValue))
    (hq : normVal v = some q) :
    catFold category w ((name, some v) :: rest) =
      ⟨q * w name + (catFold category w rest).scoreSum,
       w name + (catFold category w rest).weightSum,
       (catFold category w rest).count + 1,
       (match issueOf category name v with
        | some i => i :: (catFold category w rest).issues
        | none => (catFold category w rest).issues)⟩ := by
  simp [catFold, hq]

theorem catFold_count_eq (category : String) (w : String → ℚ)
    (group : List (String × Option SignalValue)) :
    (catFold category w group).count
      = group.countP (fun p => (Option.bind p.2 normVal).isSome) := by
  induction group with
  | nil => simp [catFold]
  | cons p rest ih =>
    obtain ⟨name, v?⟩ := p
    cases v? with
    | none => simp [catFold, List.countP_cons, ih]
    | some v =>
      cases hv : normVal v with
      | none => simp [catFold, hv, List.countP_cons, ih]
      | some q => simp [catFold, hv, List.countP_cons, ih]

theorem catFold_issues_weight_indep (category : String) (w w' : String → ℚ)
    (group : List (String × Option SignalValue)) :
    (catFold category w group).issues = (catFold category w' group).issues := by
  induction group with
  | nil => simp [catFold]
  | cons p rest ih =>
    obtain ⟨name, v?⟩ := p
    cases v? with
    | none => simpa [catFold] using ih
    | some v =>
      cases hv : normVal v with
      | none => simpa [catFold, hv] using ih
      | some q =>
        simp only [catFold, hv]
        cases issueOf category name v <;> simp [ih]

theorem catFold_allNull (category : String) (w : String → ℚ)
    (group : List (String × Option SignalValue))
    (h : ∀ p ∈ group, Option.bind p.2 normVal = none) :
    catFold category w group = ⟨0, 0, 0, []⟩ := by
  induction group with
  | nil => simp [catFold]
  | cons p rest ih =>
    obtain ⟨name, v?⟩ := p
    have hrest := ih (fun p hp => h p (List.mem_cons_of_mem _ hp))
    cases v? with
    | none => simpa [catFold] using hrest
    | some v =>
      have hv := h (name, some v) (List.mem_cons_self _ _)
      simp only [Option.some_bind] at hv
      simp [catFold, hv, hrest]

theorem catFold_weightSum_zero (category : String) (w : String → ℚ)
    (group : List (String × Option SignalValue))
    (h : ∀ p ∈ group, w p.1 = 0) :
    (catFold category w group).weightSum = 0 := by
  induction group with
  | nil => simp [catFold]
  | cons p rest ih =>
    obtain ⟨name, v?⟩ := p
    have hrest := ih (fun p hp => h p (List.mem_cons_of_mem _ hp))
    have hw := h (name, v?) (List.mem_cons_self _ _)
    cases v? with
    | none => simpa [catFold] using hrest
    | some v =>
      cases hv : normVal v with
      | none => simpa [catFold, hv] using hrest
      | some q => simp [catFold, hv, hrest, hw]

theorem scoreCategories_append
    (l1 l2 : List (String × List (String × Option SignalValue))) :
    scoreCategories (l1 ++ l2) =
      ((scoreCategories l1).1 ++ (scoreCategories l2).1,
       (scoreCategories l1).2.1 + (scoreCategories l2).2.1,
       (scoreCategories l1).2.2 ++ (scoreCategories l2).2.2) := by
  induction l1 with
  | nil => simp [scoreCategories]
  | cons p l1 ih =>
    obtain ⟨c, g⟩ := p
    simp only [List.cons_append, scoreCategories]
    cases hw : weightsTable c with
    | none => simpa using ih
    | some w' =>
      simp only [ih]
      by_cases hc : 0 < (scoreCatgory c w' g).signalCount
      · simp [hc, ih, Nat.add_assoc]
      · simp [hc, ih]

/-! ### Claim theorems -/

/-- C1: `computeScore` yields level `INSUFFICIENT_DATA` exactly when the
number of contributing signals is below `minSignalsRequired` (default 3),
and in exactly that case the result carries `score = null`,
`confidence = 0` and an empty issue list, however low the available
signals score. -/
theorem computeScore_insufficient_iff (cfg : ScorerConfig)
    (signals : List (String × List (String × Option SignalValue))) :
    ((computeScore cfg signals).level = TrustLevel.INSUFFICIENT_DATA
      ↔ (computeScore cfg signals).signalCount < cfg.minSignalsRequired)
    ∧ ((computeScore cfg signals).signalCount < cfg.minSignalsRequired →
        (computeScore cfg signals).score = none
        ∧ (computeScore cfg signals).confidence = 0
        ∧ (computeScore cfg signals).issues = []) := by
  unfold computeScore
  by_cases h : (scoreCategories signals).2.1 < cfg.minSignalsRequired
  · simp [h]
  · have hne : ∀ q : ℚ, getTrustLevel q ≠ TrustLevel.INSUFFICIENT_DATA := by
      intro q
      unfold getTrustLevel
      split_ifs <;> simp
    simp [h, hne]

/-- Witness for C1 at the empty bundle. -/
theorem computeScore_insufficient_iff_witness :
    (computeScore defaultConfig []).score = none
    ∧ (computeScore defaultConfig []).confidence = 0
    ∧ (computeScore defaultConfig []).issues = [] :=
  (computeScore_insufficient_iff defaultConfig []).2 (by decide)

/-- A bundle whose only category holds three non-null signals, each under a
name absent from the `text` weight table (so each has weight `0` via
`weights[signalName] || 0`). -/
def c2Bundle : List (String × List (String × Option SignalValue)) :=
  [("text",
    [("foo", some (SignalValue.num (1/10))),
     ("bar", some (SignalValue.num (1/10))),
     ("baz", some (SignalValue.num (1/10)))])]

/-- C2 counterexample: three non-null signals whose weights are undefined
are *not* ignored: they count 3 toward `signalCount` (crossing the
minimum-signals floor on their own), the category contributes its 0.5
fallback to the final score, and issues are generated for them. -/
theorem c2_zeroWeight_counterexample :
    (computeScore defaultConfig c2Bundle).signalCount = 3
    ∧ (computeScore defaultConfig c2Bundle).level = TrustLevel.MODERATE_TRUST
    ∧ (computeScore defaultConfig c2Bundle).score = some (1/2)
    ∧ (computeScore defaultConfig c2Bundle).issues ≠ []
    ∧ textWeights "foo" = 0 ∧ textWeights "bar" = 0 ∧ textWeights "baz" = 0 := by
  have hsc : scoreCategories c2Bundle =
      ([("text",
         ⟨1/2, 3,
          [⟨"text", "foo", 1/10, none, Severity.high⟩,
           ⟨"text", "bar", 1/10, none, Severity.high⟩,
           ⟨"text", "baz", 1/10, none, Severity.high⟩]⟩)],
       3,
       [⟨"text", "foo", 1/10, none, Severity.high⟩,
        ⟨"text", "bar", 1/10, none, Severity.high⟩,
        ⟨"text", "baz", 1/10, none, Severity.high⟩]) := by
    simp [c2Bundle, scoreCategories, scoreCatgory, catFold, issueOf,
      normVal, detailOf, weightsTable, textWeights] <;> norm_num
  refine ⟨?_, ?_, ?_, ?_, by decide, by decide, by decide⟩ <;>
    simp [computeScore, hsc, defaultConfig, categoryWeights, getTrustLevel] <;>
    norm_num

/-- C2 amended: a category all of whose signals are null (or have null
scores) contributes no signals and no issues and is dropped from
`computeScore` entirely; but a *non-null* signal with undefined weight is
treated as weight 0 rather than ignored: it still counts toward
`signalCount`, issue generation is independent of the weights, and a
category whose contributing signals all carry weight 0 gets the 0.5
fallback score. -/
theorem scoreCatgory_zeroWeight_amended :
    (∀ pre post category (group : List (String × Option SignalValue)),
        (∀ p ∈ group, Option.bind p.2 normVal = none) →
        scoreCategories (pre ++ (category, group) :: post)
          = scoreCategories (pre ++ post))
    ∧ (∀ category w (group : List (String × Option SignalValue)),
        (scoreCatgory category w group).signalCount
          = group.countP (fun p => (Option.bind p.2 normVal).isSome))
    ∧ (∀ category w w' (group : List (String × Option SignalValue)),
        (scoreCatgory category w group).issues
          = (scoreCatgory category w' group).issues)
    ∧ (∀ category w (group : List (String × Option SignalValue)),
        (∀ p ∈ group, w p.1 = 0) →
        (scoreCatgory category w group).score = 1/2) := by
  refine ⟨?_, ?_, ?_, ?_⟩
  · intro pre post category group h
    have hmid : scoreCategories [(category, group)] = ([], 0, []) := by
      simp only [scoreCategories]
      cases hw : weightsTable category with
      | none => rfl
      | some w => simp [scoreCatgory, catFold_allNull category w group h]
    have hcons : scoreCategories (pre ++ (category, group) :: post)
        = scoreCategories (pre ++ [(category, group)] ++ post) := by
      simp
    rw [hcons, scoreCategories_append, scoreCategories_append,
      scoreCategories_append, hmid]
    simp
  · intro category w group
    exact catFold_count_eq category w group
  · intro category w w' group
    exact catFold_issues_weight_indep category w w' group
  · intro category w group h
    have hz := catFold_weightSum_zero category w group h
    simp [scoreCatgory, hz]

/-- Witness for C2's amended statement: an all-null `text` category is
dropped, and a weight-0 signal list falls back to score 0.5. -/
theorem scoreCatgory_zeroWeight_amended_witness :
    scoreCategories [("text", [("aiDetection", some (SignalValue.obj none none))])]
      = scoreCategories []
    ∧ (scoreCatgory "text" textWeights [("foo", some (SignalValue.num (1/10)))]).score
      = 1/2 := by
  constructor
  · have h := scoreCatgory_zeroWeight_amended.1 [] [] "text"
      [("aiDetection", some (SignalValue.obj none none))] (by decide)
    simpa using h
  · exact scoreCatgory_zeroWeight_amended.2.2.2 "text" textWeights
      [("foo", some (SignalValue.num (1/10)))] (by decide)

/-- C3: the claim says `_scoreNetworkSignals` returns null whenever
`helpfulVotes` is unknown.  The code disagrees: the `ReviewerProfile`
constructor coerces a missing `helpfulVotes` to `null`, which passes the
`!== undefined` guard, and `null / totalReviews` coerces to `0`, so a
profile with unknown votes and more than 20 reviews is *penalized* with a
0.4 score.  This theorem evaluates the embedded code at that failing
input. -/
theorem scoreNetworkSignals_unknownVotes_divergence :
    scoreNetworkSignals (mkReviewerProfile { totalReviews := JOpt.val 25 })
      = some (2/5, some "Very low helpful vote ratio despite many reviews")
    ∧ (mkReviewerProfile { totalReviews := JOpt.val 25 }).helpfulVotes
      = JOpt.null := by
  constructor
  · norm_num [scoreNetworkSignals, mkReviewerProfile, numOrNull, strOrNull,
      arrOrEmpty, boolOrFalse, jIsUndef, jTruthyNum, jToNum]
  · norm_num [mkReviewerProfile, numOrNull]

/-- The end-to-end scenario-C bundle: a single `text` category holding the
five named signals, each scoring 0.9. -/
def c4Bundle : List (String × List (String × Option SignalValue)) :=
  [("text",
    [("aiDetection", some (SignalValue.obj (some (9/10)) none)),
     ("repetitionPattern", some (SignalValue.obj (some (9/10)) none)),
     ("sentimentConsistency", some (SignalValue.obj (some (9/10)) none)),
     ("vocabularyDistribution", some (SignalValue.obj (some (9/10)) none)),
     ("templateMatching", some (SignalValue.obj (some (9/10)) none))])]

/-- C4: five text signals of 0.9 give category score 0.9, overall score 0.9
(single present category, renormalized to full weight), level `HIGH_TRUST`
and confidence `min(1, 5/10) * 0.85 = 0.425`; in general, whenever the
minimum-signal floor is met, confidence equals
`min(1, totalSignals/10) * confidenceDecay`. -/
theorem computeScore_scenarioC :
    (computeScore defaultConfig c4Bundle).score = some (9/10)
    ∧ (computeScore defaultConfig c4Bundle).details
      = [("text", ⟨9/10, 5, []⟩)]
    ∧ (computeScore defaultConfig c4Bundle).level = TrustLevel.HIGH_TRUST
    ∧ (computeScore defaultConfig c4Bundle).confidence = 17/40
    ∧ ∀ cfg signals,
        cfg.minSignalsRequired ≤ (computeScore cfg signals).signalCount →
        (computeScore cfg signals).confidence
          = min 1 (((computeScore cfg signals).signalCount : ℚ) / 10)
              * cfg.confidenceDecay := by
  have hsc : scoreCategories c4Bundle = ([("text", ⟨9/10, 5, []⟩)], 5, []) := by
    simp [c4Bundle, scoreCategories, scoreCatgory, catFold, issueOf,
      normVal, detailOf, weightsTable, textWeights] <;> norm_num
  refine ⟨?_, ?_, ?_, ?_, ?_⟩
  · simp [computeScore, hsc, defaultConfig, categoryWeights] <;> norm_num
  · simp [computeScore, hsc, defaultConfig] <;> norm_num
  · simp [computeScore, hsc, defaultConfig, categoryWeights, getTrustLevel] <;>
      norm_num
  · simp [computeScore, hsc, defaultConfig, min_def] <;> norm_num
  · intro cfg signals
    unfold computeScore
    by_cases h : (scoreCategories signals).2.1 < cfg.minSignalsRequired
    · simp only [h, if_true]
      intro hge
      omega
    · simp [h]

/-- Witness for C4's general confidence clause at the scenario bundle. -/
theorem computeScore_scenarioC_witness :
    (computeScore defaultConfig c4Bundle).confidence
      = min 1 (((computeScore defaultConfig c4Bundle).signalCount : ℚ) / 10)
          * defaultConfig.confidenceDecay :=
  computeScore_scenarioC.2.2.2.2 defaultConfig c4Bundle (by decide)

/-- C10: the `ReviewerProfile` constructor coerces every falsy field to its
default (`0` votes/review counts and empty strings become `null`), so a
constructed profile with a zero or empty field is *equal* to one built
without that field — hence indistinguishable to every downstream account
detector, in particular `_scoreNetworkSignals`. -/
theorem mkReviewerProfile_falsy_eq_absent (d : ProfileData) :
    mkReviewerProfile { d with helpfulVotes := JOpt.val 0 }
      = mkReviewerProfile { d with helpfulVotes := JOpt.undef }
    ∧ mkReviewerProfile { d with totalReviews := JOpt.val 0 }
      = mkReviewerProfile { d with totalReviews := JOpt.undef }
    ∧ mkReviewerProfile { d with displayName := JOpt.val "" }
      = mkReviewerProfile { d with displayName := JOpt.undef }
    ∧ mkReviewerProfile { d with bio := JOpt.val "" }
      = mkReviewerProfile { d with bio := JOpt.undef }
    ∧ mkReviewerProfile { d with location := JOpt.val "" }
      = mkReviewerProfile { d with location := JOpt.undef }
    ∧ scoreNetworkSignals (mkReviewerProfile { d with helpfulVotes := JOpt.val 0 })
      = scoreNetworkSignals (mkReviewerProfile { d with helpfulVotes := JOpt.undef }) := by
  refine ⟨?_, ?_, ?_, ?_, ?_, ?_⟩ <;>
    simp [mkReviewerProfile, numOrNull, strOrNull]

/-- Both clamp bounds at once: `Math.max(0, Math.min(1, x))` lies in `[0,1]`. -/
theorem clamp01_bounds (x : ℚ) :
    0 ≤ max 0 (min 1 x) ∧ max 0 (min 1 x) ≤ 1 :=
  ⟨le_max_left 0 _, max_le (by norm_num) (min_le_left 1 _)⟩

theorem detectAIPatterns_bounds (t : List Char) :
    0 ≤ (detectAIPatterns t).1 ∧ (detectAIPatterns t).1 ≤ 1 :=
  clamp01_bounds _

theorem analyzeRepetition_bounds (t : List Char) :
    0 ≤ (analyzeRepetition t).1 ∧ (analyzeRepetition t).1 ≤ 1 := by
  refine ⟨?_, ?_⟩ <;> (simp only [analyzeRepetition]; split)
  · norm_num
  · exact (clamp01_bounds _).1
  · norm_num
  · exact (clamp01_bounds _).2

theorem analyzeSentiment_bounds (t : List Char) :
    0 ≤ (analyzeSentiment t).1 ∧ (analyzeSentiment t).1 ≤ 1 := by
  refine ⟨?_, ?_⟩ <;> (simp only [analyzeSentiment]; split_ifs) <;> norm_num

theorem analyzeVocabulary_bounds (t : List Char) :
    0 ≤ (analyzeVocabulary t).1 ∧ (analyzeVocabulary t).1 ≤ 1 := by
  refine ⟨?_, ?_⟩ <;> (simp only [analyzeVocabulary]; split)
  · norm_num
  · exact (clamp01_bounds _).1
  · norm_num
  · exact (clamp01_bounds _).2

theorem detectTemplates_bounds (t : List Char) :
    0 ≤ (detectTemplates t).1 ∧ (detectTemplates t).1 ≤ 1 := by
  constructor
  · exact le_max_left 0 _
  · refine max_le (by norm_num) ?_
    have h0 : (0:ℚ) ≤
        (((fakeReviewTemplates.filter (fun tp => hasSub tp.data t)).length : ℚ))
          * (3/10) := by positivity
    linarith

/-- C5: for every input text, each of the five lexical detector outputs of
`TextAnalyzer.analyze`, whenever its score is non-null, has a score in the
closed interval `[0,1]`. -/
theorem textDetectors_score_in_unit (t : String) :
    (∀ s d, (TextAnalyzer.analyze t).aiDetection = some (s, d) →
      0 ≤ s ∧ s ≤ 1)
    ∧ (∀ s d, (TextAnalyzer.analyze t).repetitionPattern = some (s, d) →
      0 ≤ s ∧ s ≤ 1)
    ∧ (∀ s d, (TextAnalyzer.analyze t).sentimentConsistency = some (s, d) →
      0 ≤ s ∧ s ≤ 1)
    ∧ (∀ s d, (TextAnalyzer.analyze t).vocabularyDistribution = some (s, d) →
      0 ≤ s ∧ s ≤ 1)
    ∧ (∀ s d, (TextAnalyzer.analyze t).templateMatching = some (s, d) →
      0 ≤ s ∧ s ≤ 1) := by
  by_cases h : t.length < 20
  · simp only [TextAnalyzer.analyze, if_pos h]
    simp
  · refine ⟨?_, ?_, ?_, ?_, ?_⟩ <;> intro s d heq <;>
      simp only [TextAnalyzer.analyze, if_neg h] at heq <;>
      replace heq := Option.some.inj heq
    · obtain ⟨h1, h2⟩ := detectAIPatterns_bounds (trimL (toLowerL t.data))
      rw [heq] at h1 h2
      exact ⟨h1, h2⟩
    · obtain ⟨h1, h2⟩ := analyzeRepetition_bounds (trimL (toLowerL t.data))
      rw [heq] at h1 h2
      exact ⟨h1, h2⟩
    · obtain ⟨h1, h2⟩ := analyzeSentiment_bounds (trimL (toLowerL t.data))
      rw [heq] at h1 h2
      exact ⟨h1, h2⟩
    · obtain ⟨h1, h2⟩ := analyzeVocabulary_bounds (trimL (toLowerL t.data))
      rw [heq] at h1 h2
      exact ⟨h1, h2⟩
    · obtain ⟨h1, h2⟩ := detectTemplates_bounds (trimL (toLowerL t.data))
      rw [heq] at h1 h2
      exact ⟨h1, h2⟩

/-- A concrete 40-character text used as the C5 witness input. -/
def c5Text : String := "this is a perfectly ordinary review text"

/-- Witness for C5 at a concrete text whose `aiDetection` score is
non-null. -/
theorem textDetectors_score_in_unit_witness :
    0 ≤ ((TextAnalyzer.analyze c5Text).aiDetection.getD (0, none)).1
    ∧ ((TextAnalyzer.analyze c5Text).aiDetection.getD (0, none)).1 ≤ 1 :=
  (textDetectors_score_in_unit c5Text).1
    ((TextAnalyzer.analyze c5Text).aiDetection.getD (0, none)).1
    ((TextAnalyzer.analyze c5Text).aiDetection.getD (0, none)).2
    (by
      have hlen : ¬ (c5Text.length < 20) := by decide
      simp [TextAnalyzer.analyze, hlen])

/-- The number of fixed fake-review template substrings occurring in a
text: exactly the `matchCount` of `_detectTemplates`. -/
def templateHits (text : List Char) : Nat :=
  (fakeReviewTemplates.filter (fun tp => hasSub tp.data text)).length

/-- C6: for any text passing the 20-character gate, the template-matching
score equals `max(0, 1 - 0.3 * matchCount)` where `matchCount` counts which
of the fixed fake-review template substrings occur in the normalized text;
in particular any text containing at least 4 of the template phrases scores
exactly 0 (clamped, never negative). -/
theorem templateMatching_formula (t : String) (h : 20 ≤ t.length) :
    (TextAnalyzer.analyze t).templateMatching
      = some (detectTemplates (trimL (toLowerL t.data)))
    ∧ (detectTemplates (trimL (toLowerL t.data))).1
      = max 0 (1 - (templateHits (trimL (toLowerL t.data)) : ℚ) * (3/10))
    ∧ (4 ≤ templateHits (trimL (toLowerL t.data)) →
        (detectTemplates (trimL (toLowerL t.data))).1 = 0) := by
  refine ⟨?_, rfl, ?_⟩
  · simp [TextAnalyzer.analyze, Nat.not_lt.mpr h]
  · intro h4
    have hk : (4:ℚ) ≤ (templateHits (trimL (toLowerL t.data)) : ℚ) := by
      exact_mod_cast h4
    show max 0 (1 - (templateHits (trimL (toLowerL t.data)) : ℚ) * (3/10)) = 0
    rw [max_eq_left (by linarith)]

/-- A concrete text containing four template phrases, used as the C6
witness input. -/
def c6Text : String :=
  "exactly as described and worth every penny a must have product so don\x27t hesitate to buy"

/-- Witness for C6: the concrete four-template text scores exactly 0. -/
theorem templateMatching_formula_witness :
    (detectTemplates (trimL (toLowerL c6Text.data))).1 = 0 :=
  (templateMatching_formula c6Text (by decide)).2.2 (by decide)

/-- The number of distinct 4-word shingles occurring in at least 3 distinct
texts of the batch (the quantity `_findSharedPhrases` returns one entry
for). -/
def specSharedCount (texts : List String) : Nat :=
  (uniq (shingleSets texts).flatten).countP
    (fun g => 3 ≤ (shingleSets texts).countP (fun s => s.contains g))

/-- C7: batches of fewer than 3 texts produce all-null cross-batch signals;
for at least 3 texts, `coordinatedLanguage.score` is
`max(0, 1 - 0.15 * sharedPhraseCount)` where `sharedPhraseCount` counts the
distinct 4-word shingles shared by at least 3 distinct texts. -/
theorem coordinatedLanguage_formula :
    (∀ texts : List String, texts.length < 3 →
      analyzeCrossPatterns texts = ⟨none, none, none⟩)
    ∧ (∀ texts : List String, 3 ≤ texts.length →
      (analyzeCrossPatterns texts).coordinatedLanguage.map CoordLang.score
        = some (max 0 (1 - (specSharedCount texts : ℚ) * (3/20)))) := by
  constructor
  · intro texts h
    simp [analyzeCrossPatterns, h]
  · intro texts h
    have hlen : (findSharedPhrases texts).length = specSharedCount texts := by
      unfold findSharedPhrases specSharedCount
      rw [List.length_map, List.length_mergeSort,
        ← List.countP_eq_length_filter, List.countP_map]
      rfl
    simp [analyzeCrossPatterns, Nat.not_lt.mpr h, hlen]

/-- The 4-text batch of the shared-phrase scenario: one 4-word phrase
appears in exactly 3 texts, nothing else repeats across texts. -/
def demoTexts : List String :=
  ["alpha works exactly as described", "beta works exactly as described",
   "gamma works exactly as described", "delta epsilon zeta eta theta"]

/-- Witness for C7: the scenario batch scores `1 - 0.15 * 1 = 0.85`. -/
theorem coordinatedLanguage_formula_witness :
    (analyzeCrossPatterns demoTexts).coordinatedLanguage.map CoordLang.score
      = some (17/20) := by
  have h := coordinatedLanguage_formula.2 demoTexts (by decide)
  have h1 : specSharedCount demoTexts = 1 := by decide
  have h2 : (1:ℚ) - ((1:ℕ) : ℚ) * (3/20) = 17/20 := by push_cast; ring
  rw [h, h1, h2, max_eq_right (by norm_num : (0:ℚ) ≤ 17/20)]

/-- All weights of the `text` table are nonnegative. -/
theorem textWeights_nonneg : ∀ n, 0 ≤ textWeights n := by
  intro n
  unfold textWeights
  split_ifs <;> norm_num

/-- C8: holding everything else fixed, decreasing the score of one non-null
contributing signal cannot increase the category's weighted score, for any
nonnegative weight table. -/
theorem scoreCatgory_monotone (category : String) (w : String → ℚ)
    (pre post : List (String × Option SignalValue)) (name : String)
    (v v' : SignalValue) (s s' : ℚ)
    (hw : ∀ n, 0 ≤ w n) (hv : normVal v = some s) (hv' : normVal v' = some s')
    (hle : s' ≤ s) :
    (scoreCatgory category w (pre ++ (name, some v') :: post)).score
      ≤ (scoreCatgory category w (pre ++ (name, some v) :: post)).score := by
  have h1 := catFold_append category w pre ((name, some v) :: post)
  have h2 := catFold_append category w pre ((name, some v') :: post)
  rw [catFold_cons_some category w name v s post hv] at h1
  rw [catFold_cons_some category w name v' s' post hv'] at h2
  simp only [scoreCatgory, h1, h2]
  split_ifs with hW
  · rw [div_le_div_right hW]
    have hmul : s' * w name ≤ s * w name :=
      mul_le_mul_of_nonneg_right hle (hw name)
    linarith
  · exact le_refl _

/-- Witness for C8 at a one-signal `text` category. -/
theorem scoreCatgory_monotone_witness :
    (scoreCatgory "text" textWeights
      [("aiDetection", some (SignalValue.obj (some (1/10)) none))]).score
    ≤ (scoreCatgory "text" textWeights
      [("aiDetection", some (SignalValue.obj (some (9/10)) none))]).score :=
  scoreCatgory_monotone "text" textWeights [] [] "aiDetection"
    (SignalValue.obj (some (9/10)) none) (SignalValue.obj (some (1/10)) none)
    (9/10) (1/10) textWeights_nonneg rfl rfl (by norm_num)

/-- Congruence of `computeScore` under replacing one category's signal list
by one with the same per-weight-table score and signal count. -/
theorem computeScore_congr_category (cfg : ScorerConfig)
    (cpre cpost : List (String × List (String × Option SignalValue)))
    (category : String) (g1 g2 : List (String × Option SignalValue))
    (hs : ∀ w, (scoreCatgory category w g1).score
      = (scoreCatgory category w g2).score)
    (hc : ∀ w, (scoreCatgory category w g1).signalCount
      = (scoreCatgory category w g2).signalCount) :
    ((computeScore cfg (cpre ++ (category, g1) :: cpost)).score
      = (computeScore cfg (cpre ++ (category, g2) :: cpost)).score)
    ∧ ((computeScore cfg (cpre ++ (category, g1) :: cpost)).level
      = (computeScore cfg (cpre ++ (category, g2) :: cpost)).level)
    ∧ ((computeScore cfg (cpre ++ (category, g1) :: cpost)).confidence
      = (computeScore cfg (cpre ++ (category, g2) :: cpost)).confidence)
    ∧ ((computeScore cfg (cpre ++ (category, g1) :: cpost)).signalCount
      = (computeScore cfg (cpre ++ (category, g2) :: cpost)).signalCount) := by
  have hD :
      ((scoreCategories (cpre ++ (category, g1) :: cpost)).2.1
        = (scoreCategories (cpre ++ (category, g2) :: cpost)).2.1)
      ∧ ((scoreCategories (cpre ++ (category, g1) :: cpost)).1.map
            (fun p => p.2.score * categoryWeights p.1)
        = (scoreCategories (cpre ++ (category, g2) :: cpost)).1.map
            (fun p => p.2.score * categoryWeights p.1))
      ∧ ((scoreCategories (cpre ++ (category, g1) :: cpost)).1.map
            (fun p => categoryWeights p.1)
        = (scoreCategories (cpre ++ (category, g2) :: cpost)).1.map
            (fun p => categoryWeights p.1)) := by
    rw [scoreCategories_append, scoreCategories_append]
    rcases hwt : weightsTable category with _ | w
    · simp [scoreCategories, hwt]
    · have hcw := hc w
      have hsw := hs w
      simp only [scoreCategories, hwt]
      by_cases h0 : 0 < (scoreCatgory category w g1).signalCount
      · have h0' : 0 < (scoreCatgory category w g2).signalCount := hcw ▸ h0
        simp [h0, h0', hcw, hsw]
      · have h0' : ¬ 0 < (scoreCatgory category w g2).signalCount := hcw ▸ h0
        simp [h0, h0', hcw]
  obtain ⟨hT, hM1, hM2⟩ := hD
  refine ⟨?_, ?_, ?_, ?_⟩ <;>
    simp only [computeScore, apply_ite TrustResult.score,
      apply_ite TrustResult.level, apply_ite TrustResult.confidence,
      apply_ite TrustResult.signalCount, hT, hM1, hM2]

/-- C9: replacing a signal's `{score: s, detail: d}` object with the bare
number `s` leaves the resulting score, level, confidence and signal count
unchanged, and the issue generated for that signal (when `s < 0.4`) carries
`detail = null`. -/
theorem computeScore_bareNumber (cfg : ScorerConfig)
    (cpre cpost : List (String × List (String × Option SignalValue)))
    (category : String) (spre spost : List (String × Option SignalValue))
    (name : String) (s : ℚ) (d : Option String) :
    ((computeScore cfg (cpre ++
        (category, spre ++ (name, some (SignalValue.num s)) :: spost) :: cpost)).score
      = (computeScore cfg (cpre ++
        (category, spre ++ (name, some (SignalValue.obj (some s) d)) :: spost) :: cpost)).score)
    ∧ ((computeScore cfg (cpre ++
        (category, spre ++ (name, some (SignalValue.num s)) :: spost) :: cpost)).level
      = (computeScore cfg (cpre ++
        (category, spre ++ (name, some (SignalValue.obj (some s) d)) :: spost) :: cpost)).level)
    ∧ ((computeScore cfg (cpre ++
        (category, spre ++ (name, some (SignalValue.num s)) :: spost) :: cpost)).confidence
      = (computeScore cfg (cpre ++
        (category, spre ++ (name, some (SignalValue.obj (some s) d)) :: spost) :: cpost)).confidence)
    ∧ ((computeScore cfg (cpre ++
        (category, spre ++ (name, some (SignalValue.num s)) :: spost) :: cpost)).signalCount
      = (computeScore cfg (cpre ++
        (category, spre ++ (name, some (SignalValue.obj (some s) d)) :: spost) :: cpost)).signalCount)
    ∧ ∀ w, (catFold category w
          (spre ++ (name, some (SignalValue.num s)) :: spost)).issues
        = (catFold category w spre).issues
          ++ (if s < 2/5 then
              [⟨category, name, s, none,
                if s < 1/5 then Severity.high else Severity.medium⟩]
            else [])
          ++ (catFold category w spost).issues := by
  have hraw : ∀ w : String → ℚ,
      ((catFold category w
          (spre ++ (name, some (SignalValue.num s)) :: spost)).scoreSum
        = (catFold category w
          (spre ++ (name, some (SignalValue.obj (some s) d)) :: spost)).scoreSum)
      ∧ ((catFold category w
          (spre ++ (name, some (SignalValue.num s)) :: spost)).weightSum
        = (catFold category w
          (spre ++ (name, some (SignalValue.obj (some s) d)) :: spost)).weightSum)
      ∧ ((catFold category w
          (spre ++ (name, some (SignalValue.num s)) :: spost)).count
        = (catFold category w
          (spre ++ (name, some (SignalValue.obj (some s) d)) :: spost)).count) := by
    intro w
    rw [catFold_append, catFold_append,
      catFold_cons_some category w name (SignalValue.num s) s spost rfl,
      catFold_cons_some category w name (SignalValue.obj (some s) d) s spost rfl]
    exact ⟨rfl, rfl, rfl⟩
  have hs : ∀ w, (scoreCatgory category w
        (spre ++ (name, some (SignalValue.num s)) :: spost)).score
      = (scoreCatgory category w
        (spre ++ (name, some (SignalValue.obj (some s) d)) :: spost)).score := by
    intro w
    obtain ⟨e1, e2, e3⟩ := hraw w
    simp only [scoreCatgory, e1, e2]
  have hc : ∀ w, (scoreCatgory category w
        (spre ++ (name, some (SignalValue.num s)) :: spost)).signalCount
      = (scoreCatgory category w
        (spre ++ (name, some (SignalValue.obj (some s) d)) :: spost)).signalCount := by
    intro w
    obtain ⟨e1, e2, e3⟩ := hraw w
    simp only [scoreCatgory, e3]
  obtain ⟨q1, q2, q3, q4⟩ :=
    computeScore_congr_category cfg cpre cpost category _ _ hs hc
  refine ⟨q1, q2, q3, q4, ?_⟩
  intro w
  rw [catFold_append,
    catFold_cons_some category w name (SignalValue.num s) s spost rfl]
  by_cases h25 : s < 2/5 <;>
    simp [issueOf, normVal, detailOf, h25]

end DID
